import Mathlib

/-!
Verification development for the client-side asset layer of the dashboarding
application: response utilities, the component-type registry, and the
dashboard Header controller (undo/redo history tracking, emphasis pulses,
render-time button enablement, overwrite save, edit-mode toggle).

Each definition is a shallow embedding of the corresponding JavaScript
source; theorems settle the specification claims about them.
-/

/-- Model of a JavaScript value as it appears in this slice: `null`,
booleans, (integral) numbers, strings, and plain objects given as ordered
field lists. -/
inductive JsValue : Type where
  | null : JsValue
  | bool : Bool → JsValue
  | num : Int → JsValue
  | str : String → JsValue
  | obj : List (String × JsValue) → JsValue

/-- A response as consumed by `callbackHandler`: an HTTP-like status, a
success payload `data`, and a failure `message`. -/
structure ApiResponse where
  status : Int
  data : JsValue
  message : JsValue

/-- Embedding of `callbackHandler(response, callback)`:
`callback && callback(response.status === 200 ? true : false,
response.status === 200 ? response.data : response.message)`.
The optional callback models the JavaScript truthiness guard `callback &&`;
the result is what the callback invocation produces, `none` when no
callback was supplied. -/
def callbackHandler (response : ApiResponse) (callback : Option (Bool → JsValue → α)) :
    Option α :=
  match callback with
  | none => none
  | some cb =>
      some (cb (if response.status = 200 then true else false)
               (if response.status = 200 then response.data else response.message))

/-- A response as consumed by `json`: a status and, when the JSON-decoding
capability (`response.json`) is present, the body it decodes to. `none` in
the `json` field models a response object without a (truthy) `json`
member. -/
structure FetchResponse where
  status : Int
  json : Option JsValue

/-- Embedding of `json(response)`:
`if (!response || !response.json || response.status == 404) throw new
Error('no response'); else return response.json()`. An absent response is
`none`; a thrown error is `Except.error`. -/
def json : Option FetchResponse → Except String JsValue
  | none => Except.error "no response"
  | some r =>
      match r.json with
      | none => Except.error "no response"
      | some body =>
          if r.status = 404 then Except.error "no response"
          else Except.ok body

/-- Modelled from the spec: the placeholder-id constants
(`NEW_CHART_ID`, …) imported from `./constants` are not in the provided
sources; the spec only requires them to be distinct placeholder
identifiers, so they are modelled as distinct strings. -/
def NEW_CHART_ID : String := "NEW_CHART_ID"

/-- Modelled from the spec: see `NEW_CHART_ID`. -/
def NEW_COLUMN_ID : String := "NEW_COLUMN_ID"

/-- Modelled from the spec: see `NEW_CHART_ID`. -/
def NEW_DIVIDER_ID : String := "NEW_DIVIDER_ID"

/-- Modelled from the spec: see `NEW_CHART_ID`. -/
def NEW_HEADER_ID : String := "NEW_HEADER_ID"

/-- Modelled from the spec: see `NEW_CHART_ID`. -/
def NEW_MARKDOWN_ID : String := "NEW_MARKDOWN_ID"

/-- Modelled from the spec: see `NEW_CHART_ID`. -/
def NEW_ROW_ID : String := "NEW_ROW_ID"

/-- Modelled from the spec: see `NEW_CHART_ID`. -/
def NEW_TABS_ID : String := "NEW_TABS_ID"

/-- Modelled from the spec: see `NEW_CHART_ID`. -/
def NEW_TAB_ID : String := "NEW_TAB_ID"

/-- Modelled from the spec: the structural type tags
(`CHART_TYPE`, …) imported from `./componentTypes` are not in the provided
sources; the spec describes them as structural type tags (chart, column,
divider, header, markdown, row, tabs, tab), modelled as strings. -/
def CHART_TYPE : String := "CHART"

/-- Modelled from the spec: see `CHART_TYPE`. -/
def COLUMN_TYPE : String := "COLUMN"

/-- Modelled from the spec: see `CHART_TYPE`. -/
def DIVIDER_TYPE : String := "DIVIDER"

/-- Modelled from the spec: see `CHART_TYPE`. -/
def HEADER_TYPE : String := "HEADER"

/-- Modelled from the spec: see `CHART_TYPE`. -/
def MARKDOWN_TYPE : String := "MARKDOWN"

/-- Modelled from the spec: see `CHART_TYPE`. -/
def ROW_TYPE : String := "ROW"

/-- Modelled from the spec: see `CHART_TYPE`. -/
def TABS_TYPE : String := "TABS"

/-- Modelled from the spec: see `CHART_TYPE`. -/
def TAB_TYPE : String := "TAB"

/-- Embedding of the Component Type Registry default export: the object
literal mapping each new-placeholder id to its structural type tag,
represented as an ordered association list (the object's own enumerable
properties). -/
def newComponentIdToType : List (String × String) :=
  [ (NEW_CHART_ID, CHART_TYPE)
  , (NEW_COLUMN_ID, COLUMN_TYPE)
  , (NEW_DIVIDER_ID, DIVIDER_TYPE)
  , (NEW_HEADER_ID, HEADER_TYPE)
  , (NEW_MARKDOWN_ID, MARKDOWN_TYPE)
  , (NEW_ROW_ID, ROW_TYPE)
  , (NEW_TABS_ID, TABS_TYPE)
  , (NEW_TAB_ID, TAB_TYPE) ]

/-- JavaScript property access `map[id]` on the registry object: the tag
when the id is a registered key, `none` (modelling `undefined`, the
explicit unknown marker) otherwise — never a crash. -/
def lookupComponentType (id : String) : Option String :=
  (newComponentIdToType.find? (fun e => e.1 == id)).map (fun e => e.2)

/-- The history-limit tracking state of the Header controller: the
component-local `didNotifyMaxUndoHistoryToast` flag, the redux-held
`maxUndoHistoryExceeded` flag, and an instrumentation counter recording
how many times `maxUndoHistoryToast()` has been invoked this session. -/
structure HeaderNotifyState where
  didNotifyMaxUndoHistoryToast : Bool
  maxUndoHistoryExceeded : Bool
  toastCount : Nat

/-- The session-initial history-limit state: no toast sent, limit not
exceeded. -/
def initialNotifyState : HeaderNotifyState :=
  { didNotifyMaxUndoHistoryToast := false
  , maxUndoHistoryExceeded := false
  , toastCount := 0 }

/-- Embedding of `Header.componentWillReceiveProps(nextProps)`, the handler
through which an updated `undoLength` is delivered. First branch: when
`UNDO_LIMIT - nextProps.undoLength <= 0` and the local toast flag is
unset, set the flag and invoke `maxUndoHistoryToast()` (counted). Second
branch: when `nextProps.undoLength > UNDO_LIMIT` and the
`maxUndoHistoryExceeded` prop is unset, dispatch
`setMaxUndoHistoryExceeded()` (the flag becomes true). `UNDO_LIMIT` is a
parameter: its value lives in `../util/constants`, outside this slice. -/
def componentWillReceiveProps (UNDO_LIMIT : Int) (s : HeaderNotifyState)
    (undoLength : Int) : HeaderNotifyState :=
  let s1 :=
    if UNDO_LIMIT - undoLength ≤ 0 ∧ s.didNotifyMaxUndoHistoryToast = false then
      { s with didNotifyMaxUndoHistoryToast := true, toastCount := s.toastCount + 1 }
    else s
  if undoLength > UNDO_LIMIT ∧ s.maxUndoHistoryExceeded = false then
    { s1 with maxUndoHistoryExceeded := true }
  else s1

/-- Delivering a whole sequence of `undoLength` updates to the Header, in
order. -/
def runUpdates (UNDO_LIMIT : Int) (s : HeaderNotifyState)
    (updates : List Int) : HeaderNotifyState :=
  updates.foldl (componentWillReceiveProps UNDO_LIMIT) s

/-- The emphasis state of one undo/redo control: the `emphasizeUndo`
(resp. `emphasizeRedo`) flag together with the outstanding
`setTimeout` deadline (`none` when no timer is pending). -/
structure PulseCtrl where
  emphasize : Bool
  deadline : Option Nat

/-- The passage of wall-clock time to instant `now` for one control: a
pending timer whose deadline has been reached fires, clearing the
emphasis flag (the body of the `setTimeout` callback); an unexpired or
absent timer leaves the state unchanged. -/
def tickCtrl (now : Nat) (c : PulseCtrl) : PulseCtrl :=
  match c.deadline with
  | some d => if d ≤ now then { emphasize := false, deadline := none } else c
  | none => c

/-- The transient UI state of the Header holding both controls'
emphasis pulses. -/
structure PulseUiState where
  undoCtrl : PulseCtrl
  redoCtrl : PulseCtrl

/-- Initial UI state: `emphasizeUndo` and `emphasizeRedo` unset, no timers
armed (the constructor state). -/
def initialPulseState : PulseUiState :=
  { undoCtrl := { emphasize := false, deadline := none }
  , redoCtrl := { emphasize := false, deadline := none } }

/-- Embedding of `Header.handleCtrlZ()` invoked at instant `t`: forwards
`onUndo()`, sets `emphasizeUndo`, clears any outstanding `ctrlZTimeout`
and arms a fresh 100ms timer (cancel-and-restart: the undo control's
state after the call does not depend on its previous timer). The sibling
redo control merely experiences the passage of time to `t`. -/
def handleCtrlZ (t : Nat) (s : PulseUiState) : PulseUiState :=
  { undoCtrl := { emphasize := true, deadline := some (t + 100) }
  , redoCtrl := tickCtrl t s.redoCtrl }

/-- Embedding of `Header.handleCtrlY()` invoked at instant `t`: forwards
`onRedo()`, sets `emphasizeRedo`, clears any outstanding `ctrlYTimeout`
and arms a fresh 100ms timer; the undo control experiences the passage of
time to `t`. -/
def handleCtrlY (t : Nat) (s : PulseUiState) : PulseUiState :=
  { undoCtrl := tickCtrl t s.undoCtrl
  , redoCtrl := { emphasize := true, deadline := some (t + 100) } }

/-- A timestamped undo/redo invocation delivered to the Header's key
listeners. -/
inductive PulseEvent : Type where
  | ctrlZ : Nat → PulseEvent
  | ctrlY : Nat → PulseEvent

/-- The instant at which an invocation occurs. -/
def PulseEvent.time : PulseEvent → Nat
  | .ctrlZ t => t
  | .ctrlY t => t

/-- Whether an invocation targets the undo control. -/
def PulseEvent.isCtrlZ : PulseEvent → Bool
  | .ctrlZ _ => true
  | .ctrlY _ => false

/-- Dispatch of one timestamped invocation to its handler. -/
def stepPulse (s : PulseUiState) : PulseEvent → PulseUiState
  | .ctrlZ t => handleCtrlZ t s
  | .ctrlY t => handleCtrlY t s

/-- Running a whole timestamped invocation sequence from the constructor
state. -/
def runPulse (events : List PulseEvent) : PulseUiState :=
  events.foldl stepPulse initialPulseState

/-- Whether the undo control's emphasis pulse is visibly active at instant
`t` after the invocation sequence `events`: time passes to `t` (firing a
due timer) and the `emphasizeUndo` flag is read. -/
def undoActiveAt (events : List PulseEvent) (t : Nat) : Bool :=
  (tickCtrl t (runPulse events).undoCtrl).emphasize

/-- Whether the redo control's emphasis pulse is visibly active at instant
`t` after the invocation sequence `events`. -/
def redoActiveAt (events : List PulseEvent) (t : Nat) : Bool :=
  (tickCtrl t (runPulse events).redoCtrl).emphasize

/-- The `dashboardInfo` prop: the dashboard id and the principal's
permissions, as read in `Header.render` (`dash_edit_perm`,
`dash_save_perm`). -/
structure DashboardInfo where
  id : Int
  dash_edit_perm : Bool
  dash_save_perm : Bool

/-- The Header props consulted by `render` and `overwriteDashboard`:
title, layout, filters, expanded-slice set, custom css, edit/preview
flags, unsaved-change flag, and the history lengths. -/
structure HeaderProps where
  dashboardInfo : DashboardInfo
  dashboardTitle : String
  layout : JsValue
  filters : JsValue
  expandedSlices : JsValue
  css : String
  editMode : Bool
  isV2Preview : Bool
  hasUnsavedChanges : Bool
  undoLength : Int
  redoLength : Int

mutual

/-- JavaScript `JSON.stringify` restricted to the modelled value grammar
(null, booleans, integral numbers, strings, plain objects). -/
def jsonStringify : JsValue → String
  | .null => "null"
  | .bool true => "true"
  | .bool false => "false"
  | .num n => toString n
  | .str s => "\"" ++ s ++ "\""
  | .obj fields => "\x7b" ++ jsonStringifyFields fields ++ "\x7d"

/-- Serialization of an object's field list for `jsonStringify`. -/
def jsonStringifyFields : List (String × JsValue) → String
  | [] => ""
  | (k, v) :: [] => "\"" ++ k ++ "\":" ++ jsonStringify v
  | (k, v) :: rest =>
      "\"" ++ k ++ "\":" ++ jsonStringify v ++ "," ++ jsonStringifyFields rest

end

/-- Modelled from the spec: `SAVE_TYPE_OVERWRITE` is imported from
`../util/constants`, outside this slice; the spec calls it the OVERWRITE
save mode, modelled as a distinguished string tag. -/
def SAVE_TYPE_OVERWRITE : String := "overwrite"

/-- One invocation of the persistence collaborator `onSave(data,
dashboardId, saveType)`. -/
structure SaveCall where
  positions : JsValue
  expanded_slices : JsValue
  css : String
  dashboard_title : String
  default_filters : String
  dashboardId : Int
  saveType : String

/-- Embedding of `Header.overwriteDashboard()`: builds the `data` payload
`{ positions: layout, expanded_slices: expandedSlices, css,
dashboard_title: dashboardTitle, default_filters: JSON.stringify(filters) }`
and calls `onSave(data, dashboardInfo.id, SAVE_TYPE_OVERWRITE)`. The
result is the list of persistence-collaborator invocations the call
performs, in order. -/
def overwriteDashboard (p : HeaderProps) : List SaveCall :=
  [ { positions := p.layout
    , expanded_slices := p.expandedSlices
    , css := p.css
    , dashboard_title := p.dashboardTitle
    , default_filters := jsonStringify p.filters
    , dashboardId := p.dashboardInfo.id
    , saveType := SAVE_TYPE_OVERWRITE } ]

/-- The outcome of `Header.render` for the three controls the spec
constrains: for the undo and redo buttons, `some d` when the button is
rendered with `disabled={d}` (they render inside the
`userCanSaveAs && … editMode && …` blocks), `none` when not rendered; and
whether the overwrite (Save changes) action is offered
(`userCanSaveAs && editMode && (hasUnsavedChanges || isV2Preview)`). -/
structure RenderedControls where
  undoButton : Option Bool
  redoButton : Option Bool
  overwriteOffered : Bool

/-- Embedding of the control-relevant part of `Header.render`:
`userCanSaveAs = dashboardInfo.dash_save_perm` guards the whole button
container; within it, the undo button renders when `editMode` with
`disabled={undoLength < 1}`, the redo button with
`disabled={redoLength < 1}`, and the overwrite button renders when
`editMode && (hasUnsavedChanges || isV2Preview)`. -/
def render (p : HeaderProps) : RenderedControls :=
  let userCanSaveAs := p.dashboardInfo.dash_save_perm
  { undoButton :=
      if userCanSaveAs ∧ p.editMode then some (decide (p.undoLength < 1)) else none
  , redoButton :=
      if userCanSaveAs ∧ p.editMode then some (decide (p.redoLength < 1)) else none
  , overwriteOffered :=
      userCanSaveAs && p.editMode && (p.hasUnsavedChanges || p.isV2Preview) }

/-- The editing-session state relevant to `toggleEditMode`: the
collaborator-held `editMode` boolean alongside the history collaborator's
undo and redo stacks (sequences of reversible edit operations). -/
structure DashSession where
  editMode : Bool
  undoStack : List JsValue
  redoStack : List JsValue

/-- The `undoLength` the history collaborator exposes. -/
def DashSession.undoLength (s : DashSession) : Nat := s.undoStack.length

/-- The `redoLength` the history collaborator exposes. -/
def DashSession.redoLength (s : DashSession) : Nat := s.redoStack.length

/-- Embedding of `Header.toggleEditMode()`:
`this.props.setEditMode(!this.props.editMode)` — the collaborator stores
the negated boolean; nothing else of the session is touched. -/
def toggleEditMode (s : DashSession) : DashSession :=
  { s with editMode := !s.editMode }

/-- A concrete Header props record used to evaluate the render and save
theorems on an explicit input: a principal with save permission but no
edit permission, in edit mode, with an empty undo history and two redoable
operations. -/
def exampleHeaderProps : HeaderProps :=
  { dashboardInfo := { id := 7, dash_edit_perm := false, dash_save_perm := true }
  , dashboardTitle := "births"
  , layout := JsValue.obj [("CHART-1", JsValue.obj [("type", JsValue.str "CHART")])]
  , filters := JsValue.obj [("123", JsValue.obj [("region", JsValue.str "EU")])]
  , expandedSlices := JsValue.obj []
  , css := ".dashboard \x7b color: red \x7d"
  , editMode := true
  , isV2Preview := false
  , hasUnsavedChanges := true
  , undoLength := 0
  , redoLength := 2 }

/- ------------------------------------------------------------------ -/
/- Theorems                                                            -/
/- ------------------------------------------------------------------ -/

/-- C4: `callbackHandler` invokes the callback with `(true, response.data)`
when `response.status` equals 200, and with `(false, response.message)`
for every other status. -/
theorem callbackHandler_classifies {α : Type} (response : ApiResponse)
    (cb : Bool → JsValue → α) :
    (response.status = 200 →
      callbackHandler response (some cb) = some (cb true response.data))
    ∧ (response.status ≠ 200 →
      callbackHandler response (some cb) = some (cb false response.message)) := by
  constructor <;> intro h <;> simp [callbackHandler, h]

/-- Witness for C4: status 200 with payload `{a:1}` yields
`(true, {a:1})`, and status 500 with message `"err"` yields
`(false, "err")`. -/
theorem callbackHandler_classifies_witness :
    callbackHandler ⟨200, JsValue.obj [("a", JsValue.num 1)], JsValue.null⟩
        (some (fun b v => (b, v)))
      = some (true, JsValue.obj [("a", JsValue.num 1)])
    ∧ callbackHandler ⟨500, JsValue.null, JsValue.str "err"⟩
        (some (fun b v => (b, v)))
      = some (false, JsValue.str "err") :=
  ⟨(callbackHandler_classifies _ _).1 rfl,
   (callbackHandler_classifies _ _).2 (by decide)⟩

/-- C5: `json` fails with the generic error exactly when the response is
absent, lacks the JSON-decoding capability, or carries a 404 status — in
particular 404 fails even with a decodable body present — and otherwise
returns the decoded JSON body. -/
theorem json_error_conditions (r : FetchResponse) (body : JsValue) :
    json none = Except.error "no response"
    ∧ (r.json = none → json (some r) = Except.error "no response")
    ∧ (r.status = 404 → json (some r) = Except.error "no response")
    ∧ (r.json = some body → r.status ≠ 404 → json (some r) = Except.ok body) := by
  refine ⟨rfl, ?_, ?_, ?_⟩
  · intro hj
    simp [json, hj]
  · intro hs
    cases hj : r.json <;> simp [json, hj, hs]
  · intro hj hs
    simp [json, hj, hs]

/-- Witness for C5: a 404 response that does carry a decodable body still
fails with the generic error. -/
theorem json_error_conditions_witness :
    json (some { status := 404, json := some (JsValue.num 1) })
      = Except.error "no response" :=
  (json_error_conditions { status := 404, json := some (JsValue.num 1) }
    JsValue.null).2.2.1 rfl

/-- C10: for every present response with a JSON-decoding capability, any
status other than 404 — including error statuses such as 500 — is
accepted: `json` returns the decoded body; 404 is the only status it ever
rejects. -/
theorem json_accepts_non_404 (status : Int) (body : JsValue)
    (h : status ≠ 404) :
    json (some { status := status, json := some body }) = Except.ok body := by
  simp [json, h]

/-- Witness for C10: a response with error status 500 and a decodable body
is accepted and its body returned. -/
theorem json_accepts_non_404_witness :
    json (some { status := 500, json := some (JsValue.obj [("a", JsValue.num 1)]) })
      = Except.ok (JsValue.obj [("a", JsValue.num 1)]) :=
  json_accepts_non_404 500 (JsValue.obj [("a", JsValue.num 1)]) (by decide)

/-- C7: the Component Type Registry lookup returns `none` (the explicit
unknown marker, never a crash) for every id that is not a registered key,
and returns the registered structural type tag for each of the eight
placeholder ids. -/
theorem lookupComponentType_spec (id : String)
    (h : id ∉ newComponentIdToType.map Prod.fst) :
    lookupComponentType id = none
    ∧ lookupComponentType NEW_CHART_ID = some CHART_TYPE
    ∧ lookupComponentType NEW_COLUMN_ID = some COLUMN_TYPE
    ∧ lookupComponentType NEW_DIVIDER_ID = some DIVIDER_TYPE
    ∧ lookupComponentType NEW_HEADER_ID = some HEADER_TYPE
    ∧ lookupComponentType NEW_MARKDOWN_ID = some MARKDOWN_TYPE
    ∧ lookupComponentType NEW_ROW_ID = some ROW_TYPE
    ∧ lookupComponentType NEW_TABS_ID = some TABS_TYPE
    ∧ lookupComponentType NEW_TAB_ID = some TAB_TYPE := by
  refine ⟨?_, rfl, rfl, rfl, rfl, rfl, rfl, rfl, rfl⟩
  unfold lookupComponentType
  rw [List.find?_eq_none.mpr]
  · rfl
  · intro e he hbeq
    exact h (List.mem_map.mpr ⟨e, he, by simpa using hbeq⟩)

/-- Witness for C7: the unregistered id `"CHART-123"` resolves to the
unknown marker. -/
theorem lookupComponentType_spec_witness :
    lookupComponentType "CHART-123" = none :=
  (lookupComponentType_spec "CHART-123" (by decide)).1

/-- C8: `overwriteDashboard` performs exactly one persistence call, whose
payload carries exactly the current layout as `positions`, the
expanded-slice set, the css, the title, and the JSON-serialized filter
state, together with the dashboard id and the OVERWRITE save mode. -/
theorem overwriteDashboard_spec (p : HeaderProps) :
    (overwriteDashboard p).length = 1
    ∧ (overwriteDashboard p).map SaveCall.positions = [p.layout]
    ∧ (overwriteDashboard p).map SaveCall.expanded_slices = [p.expandedSlices]
    ∧ (overwriteDashboard p).map SaveCall.css = [p.css]
    ∧ (overwriteDashboard p).map SaveCall.dashboard_title = [p.dashboardTitle]
    ∧ (overwriteDashboard p).map SaveCall.default_filters = [jsonStringify p.filters]
    ∧ (overwriteDashboard p).map SaveCall.dashboardId = [p.dashboardInfo.id]
    ∧ (overwriteDashboard p).map SaveCall.saveType = [SAVE_TYPE_OVERWRITE] :=
  ⟨rfl, rfl, rfl, rfl, rfl, rfl, rfl, rfl⟩

/-- C9: `toggleEditMode` negates the `editMode` boolean and leaves the
history stack untouched: stack contents and both exposed lengths are
unchanged. -/
theorem toggleEditMode_frame (s : DashSession) :
    (toggleEditMode s).editMode = !s.editMode
    ∧ (toggleEditMode s).undoStack = s.undoStack
    ∧ (toggleEditMode s).redoStack = s.redoStack
    ∧ (toggleEditMode s).undoLength = s.undoLength
    ∧ (toggleEditMode s).redoLength = s.redoLength :=
  ⟨rfl, rfl, rfl, rfl, rfl⟩

/-- After one delivered update, the local toast flag is its old value or-ed
with the fired condition `UNDO_LIMIT - undoLength <= 0`. -/
theorem cwrp_didNotify (L : Int) (s : HeaderNotifyState) (u : Int) :
    (componentWillReceiveProps L s u).didNotifyMaxUndoHistoryToast
      = (s.didNotifyMaxUndoHistoryToast || decide (L - u ≤ 0)) := by
  cases hfl : s.didNotifyMaxUndoHistoryToast <;>
    by_cases hc : L - u ≤ 0 <;>
      simp [componentWillReceiveProps, hfl, hc] <;> split_ifs <;> simp_all

/-- One delivered update invokes the toast exactly when the condition
holds and the local flag was still unset. -/
theorem cwrp_toastCount (L : Int) (s : HeaderNotifyState) (u : Int) :
    (componentWillReceiveProps L s u).toastCount
      = s.toastCount
        + (if s.didNotifyMaxUndoHistoryToast = false ∧ L - u ≤ 0 then 1 else 0) := by
  cases hfl : s.didNotifyMaxUndoHistoryToast <;>
    by_cases hc : L - u ≤ 0 <;>
      simp [componentWillReceiveProps, hfl, hc] <;> split_ifs <;> simp_all

/-- After one delivered update, the exceeded flag is its old value or-ed
with `undoLength > UNDO_LIMIT`. -/
theorem cwrp_max (L : Int) (s : HeaderNotifyState) (u : Int) :
    (componentWillReceiveProps L s u).maxUndoHistoryExceeded
      = (s.maxUndoHistoryExceeded || decide (u > L)) := by
  cases hfl : s.maxUndoHistoryExceeded <;>
    by_cases hc : u > L <;>
      simp [componentWillReceiveProps, hfl, hc] <;> split_ifs <;> simp_all

/-- Unfolding one update from a delivered sequence. -/
theorem runUpdates_cons (L : Int) (s : HeaderNotifyState) (u : Int) (us : List Int) :
    runUpdates L s (u :: us) = runUpdates L (componentWillReceiveProps L s u) us :=
  rfl

/-- Over a whole delivered sequence, the local toast flag records whether
some update met the fired condition. -/
theorem runUpdates_didNotify (L : Int) (us : List Int) : ∀ s : HeaderNotifyState,
    (runUpdates L s us).didNotifyMaxUndoHistoryToast
      = (s.didNotifyMaxUndoHistoryToast || us.any (fun u => decide (L - u ≤ 0))) := by
  induction us with
  | nil => intro s; simp [runUpdates]
  | cons u us ih =>
      intro s
      rw [runUpdates_cons, ih, cwrp_didNotify]
      simp [Bool.or_assoc]

/-- Over a whole delivered sequence, the toast count rises by one exactly
when the flag was unset and some update met the fired condition. -/
theorem runUpdates_toastCount (L : Int) (us : List Int) : ∀ s : HeaderNotifyState,
    (runUpdates L s us).toastCount
      = s.toastCount
        + (if s.didNotifyMaxUndoHistoryToast = false
              ∧ us.any (fun u => decide (L - u ≤ 0)) = true then 1 else 0) := by
  induction us with
  | nil => intro s; simp [runUpdates]
  | cons u us ih =>
      intro s
      rw [runUpdates_cons, ih, cwrp_toastCount, cwrp_didNotify, List.any_cons]
      cases hfl : s.didNotifyMaxUndoHistoryToast <;>
        by_cases hc : L - u ≤ 0 <;>
          cases hany : us.any (fun u => decide (L - u ≤ 0)) <;>
            simp [hc]

/-- Once set, the exceeded flag survives any further delivered sequence. -/
theorem runUpdates_max_mono (L : Int) (us : List Int) : ∀ s : HeaderNotifyState,
    s.maxUndoHistoryExceeded = true →
    (runUpdates L s us).maxUndoHistoryExceeded = true := by
  induction us with
  | nil => intro s h; simpa [runUpdates] using h
  | cons u us ih =>
      intro s h
      rw [runUpdates_cons]
      exact ih _ (by rw [cwrp_max, h]; rfl)

/-- C1: over every update sequence delivered from the session-initial
state, `maxUndoHistoryToast` is invoked exactly once if some update meets
`UNDO_LIMIT - undoLength <= 0` and never otherwise (hence at most once,
and exactly at the first update meeting the condition, since this holds
of every prefix); in particular the sequence `[0, 1, …, UNDO_LIMIT + 1]`
invokes it exactly once. -/
theorem maxUndoHistoryToast_fires_once (UNDO_LIMIT : Nat) (updates : List Int) :
    ((runUpdates UNDO_LIMIT initialNotifyState updates).toastCount
        = if updates.any (fun u => decide ((UNDO_LIMIT : Int) - u ≤ 0)) = true
          then 1 else 0)
    ∧ ((runUpdates UNDO_LIMIT initialNotifyState updates).didNotifyMaxUndoHistoryToast
        = updates.any (fun u => decide ((UNDO_LIMIT : Int) - u ≤ 0)))
    ∧ (runUpdates UNDO_LIMIT initialNotifyState
        ((List.range (UNDO_LIMIT + 2)).map (fun k : Nat => (k : Int)))).toastCount = 1 := by
  refine ⟨?_, ?_, ?_⟩
  · rw [runUpdates_toastCount]
    simp [initialNotifyState]
  · rw [runUpdates_didNotify]
    simp [initialNotifyState]
  · have hlt : UNDO_LIMIT < UNDO_LIMIT + 2 := by omega
    have hmem : (UNDO_LIMIT : Int) ∈ (List.range (UNDO_LIMIT + 2)).map (fun k : Nat => (k : Int)) :=
      List.mem_map.mpr ⟨UNDO_LIMIT, List.mem_range.mpr hlt, rfl⟩
    have hany : (((List.range (UNDO_LIMIT + 2)).map (fun k : Nat => (k : Int))).any
        (fun u => decide ((UNDO_LIMIT : Int) - u ≤ 0))) = true :=
      List.any_eq_true.mpr ⟨(UNDO_LIMIT : Int), hmem, by simp⟩
    rw [runUpdates_toastCount, hany]
    simp [initialNotifyState]

/-- C2: once some delivered update has `undoLength > UNDO_LIMIT`, the
`maxUndoHistoryExceeded` flag is set and stays true through every later
update of the session, whatever later `undoLength` values arrive. -/
theorem maxUndoHistoryExceeded_sticky (UNDO_LIMIT : Int) (s : HeaderNotifyState)
    (pre post : List Int) (u : Int) (h : u > UNDO_LIMIT) :
    (runUpdates UNDO_LIMIT s (pre ++ u :: post)).maxUndoHistoryExceeded = true := by
  unfold runUpdates
  rw [List.foldl_append, List.foldl_cons]
  refine runUpdates_max_mono UNDO_LIMIT post _ ?_
  rw [cwrp_max]
  simp [h]

/-- Witness for C2: with limit 2 and updates `[0, 3, 1]`, the flag is true
after the final update even though 1 is back below the limit. -/
theorem maxUndoHistoryExceeded_sticky_witness :
    (runUpdates 2 initialNotifyState ([0] ++ 3 :: [1])).maxUndoHistoryExceeded = true :=
  maxUndoHistoryExceeded_sticky 2 initialNotifyState [0] [1] 3 (by decide)

/-- An inactive, timer-free control stays inactive under any sequence of
ticks. -/
theorem foldl_tickCtrl_inactive (ts : List Nat) :
    ts.foldl (fun c u => tickCtrl u c) { emphasize := false, deadline := none }
      = { emphasize := false, deadline := none } := by
  induction ts with
  | nil => rfl
  | cons u ts ih =>
      rw [List.foldl_cons]
      exact ih

/-- Once a pulse is armed with deadline `d`, ticks at instants `≤ t`
followed by an observation at `t` show the pulse active exactly while
`t < d`. -/
theorem tickCtrl_foldl_armed (d t : Nat) (ts : List Nat) (hts : ∀ u ∈ ts, u ≤ t) :
    (tickCtrl t (ts.foldl (fun c u => tickCtrl u c)
        { emphasize := true, deadline := some d })).emphasize
      = decide (t < d) := by
  induction ts with
  | nil =>
      by_cases h : d ≤ t
      · have hnt : ¬ t < d := by omega
        simp [tickCtrl, h, hnt]
      · have hlt : t < d := by omega
        simp [tickCtrl, h, hlt]
  | cons u ts ih =>
      rw [List.foldl_cons]
      by_cases h : d ≤ u
      · have h1 : tickCtrl u { emphasize := true, deadline := some d }
            = { emphasize := false, deadline := none } := by simp [tickCtrl, h]
        rw [h1, foldl_tickCtrl_inactive]
        have hut : u ≤ t := hts u (List.mem_cons_self u ts)
        have hnt : ¬ t < d := by omega
        simp [tickCtrl, hnt]
      · have h1 : tickCtrl u { emphasize := true, deadline := some d }
            = { emphasize := true, deadline := some d } := by simp [tickCtrl, h]
        rw [h1]
        exact ih (fun v hv => hts v (List.mem_cons_of_mem u hv))

/-- A redo invocation only lets time pass for the undo control. -/
theorem stepPulse_undoCtrl (s : PulseUiState) (e : PulseEvent)
    (h : e.isCtrlZ = false) :
    (stepPulse s e).undoCtrl = tickCtrl e.time s.undoCtrl := by
  cases e with
  | ctrlZ t => simp [PulseEvent.isCtrlZ] at h
  | ctrlY t => rfl

/-- Over a run of invocations none of which is an undo, the undo control
just experiences the ticks of their instants. -/
theorem foldl_stepPulse_undoCtrl (es : List PulseEvent) : ∀ s : PulseUiState,
    (∀ e ∈ es, e.isCtrlZ = false) →
    (es.foldl stepPulse s).undoCtrl
      = (es.map PulseEvent.time).foldl (fun c u => tickCtrl u c) s.undoCtrl := by
  induction es with
  | nil => intro s _; rfl
  | cons e es ih =>
      intro s h
      rw [List.foldl_cons, List.map_cons, List.foldl_cons,
        ih _ (fun x hx => h x (List.mem_cons_of_mem e hx))]
      rw [stepPulse_undoCtrl s e (h e (List.mem_cons_self e es))]

/-- An undo invocation only lets time pass for the redo control. -/
theorem stepPulse_redoCtrl (s : PulseUiState) (e : PulseEvent)
    (h : e.isCtrlZ = true) :
    (stepPulse s e).redoCtrl = tickCtrl e.time s.redoCtrl := by
  cases e with
  | ctrlZ t => rfl
  | ctrlY t => simp [PulseEvent.isCtrlZ] at h

/-- Over a run of invocations none of which is a redo, the redo control
just experiences the ticks of their instants. -/
theorem foldl_stepPulse_redoCtrl (es : List PulseEvent) : ∀ s : PulseUiState,
    (∀ e ∈ es, e.isCtrlZ = true) →
    (es.foldl stepPulse s).redoCtrl
      = (es.map PulseEvent.time).foldl (fun c u => tickCtrl u c) s.redoCtrl := by
  induction es with
  | nil => intro s _; rfl
  | cons e es ih =>
      intro s h
      rw [List.foldl_cons, List.map_cons, List.foldl_cons,
        ih _ (fun x hx => h x (List.mem_cons_of_mem e hx))]
      rw [stepPulse_redoCtrl s e (h e (List.mem_cons_self e es))]

/-- C3: for every chronologically ordered invocation sequence, the
emphasis pulse of a control is active at an observation instant `t`
exactly when `t` lies within 100ms of the most recent invocation of that
control: a repeated invocation before the window elapses cancels the
outstanding timer and restarts the window rather than stacking a second
pulse, and the pulse is never active longer. Stated for both controls:
`t0` is the instant of the last undo (resp. redo) invocation and `post`
holds the later invocations of the other control only. -/
theorem pulse_debounce (pre post : List PulseEvent) (t0 t : Nat)
    (hchain : List.Chain' (· ≤ ·)
      ((pre.map PulseEvent.time) ++ t0 :: (post.map PulseEvent.time) ++ [t])) :
    ((∀ e ∈ post, e.isCtrlZ = false) →
      (undoActiveAt (pre ++ PulseEvent.ctrlZ t0 :: post) t = true ↔ t < t0 + 100))
    ∧ ((∀ e ∈ post, e.isCtrlZ = true) →
      (redoActiveAt (pre ++ PulseEvent.ctrlY t0 :: post) t = true ↔ t < t0 + 100)) := by
  have hpw : List.Pairwise (· ≤ ·)
      ((pre.map PulseEvent.time) ++ t0 :: (post.map PulseEvent.time) ++ [t]) :=
    List.chain'_iff_pairwise.mp hchain
  have hpost : ∀ u ∈ post.map PulseEvent.time, u ≤ t := by
    intro u hu
    refine (List.pairwise_append.mp hpw).2.2 u ?_ t (List.mem_singleton.mpr rfl)
    exact List.mem_append_right _ (List.mem_cons_of_mem t0 hu)
  constructor
  · intro hz
    have hrun : (runPulse (pre ++ PulseEvent.ctrlZ t0 :: post)).undoCtrl
        = (post.map PulseEvent.time).foldl (fun c u => tickCtrl u c)
            { emphasize := true, deadline := some (t0 + 100) } := by
      unfold runPulse
      rw [List.foldl_append, List.foldl_cons]
      rw [foldl_stepPulse_undoCtrl post _ hz]
      rfl
    unfold undoActiveAt
    rw [hrun, tickCtrl_foldl_armed (t0 + 100) t _ hpost]
    simp
  · intro hy
    have hrun : (runPulse (pre ++ PulseEvent.ctrlY t0 :: post)).redoCtrl
        = (post.map PulseEvent.time).foldl (fun c u => tickCtrl u c)
            { emphasize := true, deadline := some (t0 + 100) } := by
      unfold runPulse
      rw [List.foldl_append, List.foldl_cons]
      rw [foldl_stepPulse_redoCtrl post _ hy]
      rfl
    unfold redoActiveAt
    rw [hrun, tickCtrl_foldl_armed (t0 + 100) t _ hpost]
    simp

/-- Witness for C3: undo invocations at instants 0 and 50 and a redo
invocation at 70; observed at instant 120 the undo pulse is still active,
because the invocation at 50 restarted the 100ms window (a pulse armed
only at 0 would have expired at instant 100) and the interleaved redo did
not disturb it. -/
theorem pulse_debounce_witness :
    undoActiveAt [PulseEvent.ctrlZ 0, PulseEvent.ctrlZ 50, PulseEvent.ctrlY 70] 120
      = true :=
  ((pulse_debounce [PulseEvent.ctrlZ 0] [PulseEvent.ctrlY 70] 50 120
      (by simp [PulseEvent.time])).1 (by decide)).mpr (by decide)

/-- The undo button of the rendered output, as a function of the props. -/
theorem render_undoButton (p : HeaderProps) :
    (render p).undoButton
      = if p.dashboardInfo.dash_save_perm ∧ p.editMode
        then some (decide (p.undoLength < 1)) else none := rfl

/-- The redo button of the rendered output, as a function of the props. -/
theorem render_redoButton (p : HeaderProps) :
    (render p).redoButton
      = if p.dashboardInfo.dash_save_perm ∧ p.editMode
        then some (decide (p.redoLength < 1)) else none := rfl

/-- Whenever the undo button is rendered, its disabled flag is the
computed `undoLength < 1`. -/
theorem undoButton_value (p : HeaderProps) (d : Bool)
    (h : (render p).undoButton = some d) : d = decide (p.undoLength < 1) := by
  rw [render_undoButton] at h
  split at h
  · exact (Option.some.inj h).symm
  · exact Option.noConfusion h

/-- Whenever the redo button is rendered, its disabled flag is the
computed `redoLength < 1`. -/
theorem redoButton_value (p : HeaderProps) (d : Bool)
    (h : (render p).redoButton = some d) : d = decide (p.redoLength < 1) := by
  rw [render_redoButton] at h
  split at h
  · exact (Option.some.inj h).symm
  · exact Option.noConfusion h

/-- C6: in every rendered state, the undo control's disabled flag is true
exactly when `undoLength < 1` and the redo control's exactly when
`redoLength < 1`; both are independent of edit mode (edit mode decides
only whether the button appears, never its disabled value); and the
overwrite action is offered only under `dash_save_perm`, unaffected by
`dash_edit_perm`. -/
theorem render_enablement (p : HeaderProps) :
    (∀ d, (render p).undoButton = some d → (d = true ↔ p.undoLength < 1))
    ∧ (∀ d, (render p).redoButton = some d → (d = true ↔ p.redoLength < 1))
    ∧ ((render p).overwriteOffered = true → p.dashboardInfo.dash_save_perm = true)
    ∧ (∀ b₁ b₂ d₁ d₂,
        (render { p with editMode := b₁ }).undoButton = some d₁ →
        (render { p with editMode := b₂ }).undoButton = some d₂ → d₁ = d₂)
    ∧ (∀ b₁ b₂ d₁ d₂,
        (render { p with editMode := b₁ }).redoButton = some d₁ →
        (render { p with editMode := b₂ }).redoButton = some d₂ → d₁ = d₂)
    ∧ (∀ b, (render { p with
          dashboardInfo := { p.dashboardInfo with dash_edit_perm := b } }).overwriteOffered
        = (render p).overwriteOffered) := by
  refine ⟨?_, ?_, ?_, ?_, ?_, ?_⟩
  · intro d h
    rw [undoButton_value p d h]
    exact decide_eq_true_iff
  · intro d h
    rw [redoButton_value p d h]
    exact decide_eq_true_iff
  · intro h
    simp only [render, Bool.and_eq_true] at h
    exact h.1.1
  · intro b₁ b₂ d₁ d₂ h₁ h₂
    rw [undoButton_value _ _ h₁, undoButton_value _ _ h₂]
  · intro b₁ b₂ d₁ d₂ h₁ h₂
    rw [redoButton_value _ _ h₁, redoButton_value _ _ h₂]
  · intro b
    rfl

/-- Witness for C6: on the example props (save permission, edit mode,
empty undo history, unsaved changes) the rendered undo button is disabled
with flag `true`, establishing `undoLength < 1`; and the offered overwrite
action establishes save permission. -/
theorem render_enablement_witness :
    (true = true ↔ exampleHeaderProps.undoLength < 1)
    ∧ exampleHeaderProps.dashboardInfo.dash_save_perm = true :=
  ⟨(render_enablement exampleHeaderProps).1 true (by decide),
   (render_enablement exampleHeaderProps).2.2.1 (by decide)⟩



